import Mathlib

/-!
Shallow embedding of `src/shim/boot_dev/sata_boot_shim.c` (redpill-lkm SATA
boot shim), covering the capacity prober (`opportunistic_read_capacity`),
the eligibility classifier (`is_shim_target`), the probe interception shim
(`sd_probe_shim`), the existing-device reconciler (`on_existing_device` /
`probe_existing_devices`) and the install/uninstall entry points
(`register_sata_boot_shim` / `unregister_sata_boot_shim`).

Kernel-side effects (SCSI command issue, msleep, device remove/rescan, log
lines) are made explicit: the prober returns a trace recording how many
CAP(16)/CAP(10) commands were issued and how many 500ms sleeps happened; the
reconciler returns one event per visited device.
-/

/-! ### Constants from the C source and kernel headers -/

-- scsi.h sense keys
def ILLEGAL_REQUEST : Nat := 0x05

def UNIT_ATTENTION : Nat := 0x06

-- #define SCSI_CAP_MAX_RETRIES 3
def SCSI_CAP_MAX_RETRIES : Nat := 3

-- scsi device type for disks (sdp->type == TYPE_DISK)
def TYPE_DISK : Nat := 0x00

-- syno kernel constant; exact numeric value is external to this repo and
-- only ever compared for equality, so any fixed value is faithful
def SYNO_PORT_TYPE_SATA : Nat := 1

-- build-time identity strings (values come from the syno kernel config;
-- only used as opaque configured target identity)
def CONFIG_SYNO_SATA_DOM_VENDOR : String := "SATADOM"

def CONFIG_SYNO_SATA_DOM_MODEL : String := "TYPE D 3SE"

/-! ### Capacity prober: `opportunistic_read_capacity`

`scsi_read_cap16`/`scsi_read_cap10` return 0 on command success and >0 on
failure, filling the sense header (see their doc comments in the source).
A device is modelled as a function from (which command was issued, how many
commands of that kind were issued before) to the response of the device. -/

/-- Response of the device to one capacity command. `ok` carries the fields
the code later parses out of the READ CAPACITY(16) payload: the last LBA
(64-bit big-endian at offset 0) and the sector size (32-bit at offset 8).
`fail` is a nonzero `scsi_execute_req` return with the sense header data
(`scsi_sense_valid`, sense key, asc, ascq). -/
inductive ScsiResult where
  | ok (lba : Nat) (sectorSize : Nat)
  | fail (senseValid : Bool) (senseKey : Nat) (asc : Nat) (ascq : Nat)
deriving DecidableEq

/-- Outcome of `opportunistic_read_capacity`: `-EFAULT` on kmalloc failure,
`-EINVAL` on a hard refusal, `-EIO` when the retry budget is exhausted, or
the capacity in full mebibytes. -/
inductive CapOutcome where
  | efault
  | einval
  | exhausted
  | cap (mib : Nat)
deriving DecidableEq

/-- Capacity computation `size_mb = ((lba+1) * sector_size) / 1024 / 1024`, computed in unsigned
64-bit arithmetic (hence the `% 2^64`). -/
def rc16_size_mib (lba sectorSize : Nat) : Nat :=
  (((lba + 1) * sectorSize) % 2 ^ 64) / 1024 / 1024

/-- Instrumented result of the prober: outcome, number of CAP(16) commands
issued, number of CAP(10) commands issued, number of `msleep(500)` calls. -/
structure OrcTrace where
  outcome : CapOutcome
  a16 : Nat
  a10 : Nat
  sleeps : Nat
deriving DecidableEq

/-- One-to-one translation of the `do { ... } while (--read_retry);` loop of
`opportunistic_read_capacity`, with `fuel` the current value of `read_retry`
(the loop body runs when `fuel > 0`; `continue` decrements and re-tests).
On `break` with `out == 0` the post-loop capacity computation is folded in;
leaving the loop with `out != 0` yields `-EIO` (`exhausted`). -/
def orcIter (dev : Bool → Nat → ScsiResult) : Bool → Nat → Nat → Nat → OrcTrace
  | _use16, _n16, _n10, 0 =>
      { outcome := CapOutcome.exhausted, a16 := 0, a10 := 0, sleeps := 0 }
  | use16, n16, n10, f + 1 =>
      match dev use16 (if use16 then n16 else n10) with
      | ScsiResult.ok lba ss =>
          -- out == 0: break, then parse buffer and return size_mb
          { outcome := CapOutcome.cap (rc16_size_mib lba ss),
            a16 := if use16 then 1 else 0, a10 := if use16 then 0 else 1,
            sleeps := 0 }
      | ScsiResult.fail senseValid senseKey asc ascq =>
          let a16h : Nat := if use16 then 1 else 0
          let a10h : Nat := if use16 then 0 else 1
          let n16h : Nat := n16 + a16h
          let n10h : Nat := n10 + a10h
          if !use16 then
            -- `if (!use_cap16) { use_cap16 = false; continue; }`
            -- (note: the guard really is `!use_cap16` in the source)
            let t := orcIter dev false n16h n10h f
            { outcome := t.outcome, a16 := a16h + t.a16, a10 := a10h + t.a10,
              sleeps := t.sleeps }
          else if !senseValid then
            -- invalid sense: retry right away
            let t := orcIter dev use16 n16h n10h f
            { outcome := t.outcome, a16 := a16h + t.a16, a10 := a10h + t.a10,
              sleeps := t.sleeps }
          else if senseKey == ILLEGAL_REQUEST && (asc == 0x20 || asc == 0x24)
              && ascq == 0 then
            -- hard refusal: return -EINVAL immediately
            { outcome := CapOutcome.einval, a16 := a16h, a10 := a10h,
              sleeps := 0 }
          else if senseKey == UNIT_ATTENTION && asc == 0x29 && ascq == 0 then
            -- drive busy: msleep(500) and retry
            let t := orcIter dev use16 n16h n10h f
            { outcome := t.outcome, a16 := a16h + t.a16, a10 := a10h + t.a10,
              sleeps := 1 + t.sleeps }
          else
            -- no recovery branch matched: fall through to `--read_retry`
            let t := orcIter dev use16 n16h n10h f
            { outcome := t.outcome, a16 := a16h + t.a16, a10 := a10h + t.a10,
              sleeps := t.sleeps }

/-- Function `opportunistic_read_capacity`: kmalloc failure returns `-EFAULT`;
otherwise the retry loop starts with `use_cap16 = true` and
`read_retry = SCSI_CAP_MAX_RETRIES`. -/
def opportunistic_read_capacity (allocOk : Bool)
    (dev : Bool → Nat → ScsiResult) : OrcTrace :=
  if allocOk then orcIter dev true 0 0 SCSI_CAP_MAX_RETRIES
  else { outcome := CapOutcome.efault, a16 := 0, a10 := 0, sleeps := 0 }

/-- The `long long` value actually returned by the C function. -/
def orcReturnValue (t : OrcTrace) : Int :=
  match t.outcome with
  | CapOutcome.efault => -14    -- -EFAULT
  | CapOutcome.einval => -22    -- -EINVAL
  | CapOutcome.exhausted => -5  -- -EIO
  | CapOutcome.cap m => (m : Int)

/-- A sense payload the code treats as a definitive hard refusal. -/
def isHardRefusal : ScsiResult → Bool
  | ScsiResult.ok _ _ => false
  | ScsiResult.fail senseValid senseKey asc ascq =>
      senseValid && (senseKey == ILLEGAL_REQUEST
        && (asc == 0x20 || asc == 0x24) && ascq == 0)

/-- A sense payload the code treats as "drive busy, wait and retry". -/
def isTransientBusy : ScsiResult → Bool
  | ScsiResult.ok _ _ => false
  | ScsiResult.fail senseValid senseKey asc ascq =>
      senseValid && (senseKey == UNIT_ATTENTION && asc == 0x29 && ascq == 0)

/-- Any failed command that is not a hard refusal (these all `continue`). -/
def isSoftFail : ScsiResult → Bool
  | ScsiResult.ok _ _ => false
  | ScsiResult.fail senseValid senseKey asc ascq =>
      !(senseValid && (senseKey == ILLEGAL_REQUEST
        && (asc == 0x20 || asc == 0x24) && ascq == 0))

/-! ### Eligibility classifier and probe interception shim -/

/-- Model of a `struct scsi_device` leaf as seen by this module: the bus
classification bits read by `is_sata_disk`, the identity strings, the
responses of the device to capacity commands and whether the probe-time kmalloc
succeeds, plus whether the host transport template has a `user_scan` hook
(read by `on_existing_device`). -/
structure SDevice where
  is_sdev : Bool          -- scsi_is_sdev_device(dev)
  scsi_type : Nat         -- sdp->type
  syno_port_type : Nat    -- sdp->host->hostt->syno_port_type
  vendor : String         -- sdp->vendor
  model : String          -- sdp->model
  resp : Bool → Nat → ScsiResult
  allocOk : Bool
  user_scan : Bool        -- host->transportt->user_scan != NULL

/-- Predicate `is_sata_disk`: leaf SCSI device, of disk type, on a SATA port. -/
def is_sata_disk (d : SDevice) : Bool :=
  if !d.is_sdev then false
  else if d.scsi_type != TYPE_DISK || d.syno_port_type != SYNO_PORT_TYPE_SATA then false
  else true

/-- The module-global state read by the classifier:
`max_dom_size_mib` (set during register) and `device_mapped`. -/
structure ShimState where
  max_dom_size_mib : Nat
  device_mapped : Bool
deriving DecidableEq

/-- Classifier `is_shim_target`: probe the capacity; a negative return means the probe
failed (not shimmed); larger than the threshold means not shimmed; if a
device was already mapped, warn and refuse; otherwise it is a target.
(`capacity_mib > max_dom_size_mib` compares a non-negative `long long`
against an `unsigned long`.) -/
def is_shim_target (st : ShimState) (d : SDevice) : Bool :=
  let capacity_mib : Int := orcReturnValue (opportunistic_read_capacity d.allocOk d.resp)
  if capacity_mib < 0 then false
  else if capacity_mib > (st.max_dom_size_mib : Int) then false
  else if st.device_mapped then false
  else true

/-- Interceptor `sd_probe_shim`: non-SATA-disks go straight to the proxy; shim targets
get their vendor/model rewritten and `device_mapped` set before the saved
original probe (`org_sd_probe`, modelled as the function argument) runs on
the device. Returns (probe return value, device as the original probe saw
it, new global state). -/
def sd_probe_shim (org_sd_probe : SDevice → Int) (st : ShimState)
    (d : SDevice) : Int × SDevice × ShimState :=
  if !is_sata_disk d then (org_sd_probe d, d, st)
  else if is_shim_target st d then
    let d2 : SDevice :=
      { d with vendor := CONFIG_SYNO_SATA_DOM_VENDOR,
               model := CONFIG_SYNO_SATA_DOM_MODEL }
    (org_sd_probe d2, d2, { st with device_mapped := true })
  else (org_sd_probe d, d, st)

/-! ### Existing-device reconciler -/

/-- What `on_existing_device` did (and logged) for one visited device. -/
inductive ReconEvent where
  | ignored_not_sata                 -- debug log: not a SATA disk
  | ignored_not_target               -- debug log: not a shim target
  | reconnected (user_scan : Bool)   -- info log + scsi_remove_device + rescan
deriving DecidableEq

/-- Callback `on_existing_device`: skip non-SATA-disks and non-targets; for a target,
remove the device from its host and trigger a rescan (template-based when
`user_scan` exists, generic otherwise). Always returns 0 ("continue calling
me"); never writes the identity strings of the device. -/
def on_existing_device (st : ShimState) (d : SDevice) :
    Int × SDevice × ReconEvent :=
  if !is_sata_disk d then (0, d, ReconEvent.ignored_not_sata)
  else if !is_shim_target st d then (0, d, ReconEvent.ignored_not_target)
  else (0, d, ReconEvent.reconnected d.user_scan)

/-- Kernel `bus_for_each_dev` specialised to this callback shape: visit the
devices in order, stopping as soon as the callback returns nonzero; collect
the (possibly updated) devices and the events of the visited ones. -/
def bus_for_each_dev (f : SDevice → Int × SDevice × ReconEvent) :
    List SDevice → Int × List SDevice × List ReconEvent
  | [] => (0, [], [])
  | d :: rest =>
      let r := f d
      if r.1 != 0 then (r.1, r.2.1 :: rest, [r.2.2])
      else
        let rr := bus_for_each_dev f rest
        (rr.1, r.2.1 :: rr.2.1, r.2.2 :: rr.2.2)

/-- Function `probe_existing_devices`: run `on_existing_device` over every device on
the bus of the sd driver. -/
def probe_existing_devices (st : ShimState) (devs : List SDevice) :
    Int × List SDevice × List ReconEvent :=
  bus_for_each_dev (on_existing_device st) devs

/-! ### Install / uninstall (`register_sata_boot_shim` /
`unregister_sata_boot_shim`) -/

/-- A probe-function pointer: either `&sd_probe_shim` or some other
function (the real `sd_probe`, say). -/
inductive ProbePtr where
  | shim
  | ext (n : Nat)
deriving DecidableEq

/-- Values of `boot_media->type` values relevant here. -/
inductive BootMediaType where
  | sata    -- BOOT_MEDIA_SATA
  | usb     -- BOOT_MEDIA_USB
deriving DecidableEq

/-- The `struct boot_media` fields this module reads. -/
structure BootMedia where
  mtype : BootMediaType   -- boot_dev_config->type
  dom_size_mib : Nat      -- boot_dev_config->dom_size_mib
deriving DecidableEq

/-- Whole-module global state: the probe pointer of the sd driver (`drv->probe`),
the saved original probe (`org_sd_probe`, non-null iff installed), the two
classifier globals, and the devices currently on the sd bus. -/
structure FullState where
  drv_probe : ProbePtr
  org_sd_probe : Option ProbePtr
  max_dom_size_mib : Nat
  device_mapped : Bool
  devices : List SDevice

/-- Function `register_sata_boot_shim`: reject non-SATA boot media with `-EINVAL`;
reject a second registration (`org_sd_probe` already set) with `-EEXIST`;
propagate the error if the sd driver cannot be found; otherwise set the
threshold, save the original probe, install the shim probe, and reconcile
the already-present devices. Returns (return value, new state, reconciler
events). -/
def register_sata_boot_shim (cfg : BootMedia) (drvFound : Bool)
    (ptrErr : Int) (st : FullState) : Int × FullState × List ReconEvent :=
  if cfg.mtype ≠ BootMediaType.sata then (-22, st, [])
  else if st.org_sd_probe.isSome then (-17, st, [])
  else if !drvFound then (ptrErr, st, [])
  else
    let scan := probe_existing_devices
      { max_dom_size_mib := cfg.dom_size_mib,
        device_mapped := st.device_mapped } st.devices
    (0, { st with max_dom_size_mib := cfg.dom_size_mib,
                  org_sd_probe := some st.drv_probe,
                  drv_probe := ProbePtr.shim,
                  devices := scan.2.1 }, scan.2.2)

/-- Function `unregister_sata_boot_shim`: `-ENOENT` when not registered; propagate
the error if the sd driver cannot be found; otherwise restore the original
probe, clear `org_sd_probe` and `max_dom_size_mib`, and consciously leave
`device_mapped` alone. -/
def unregister_sata_boot_shim (drvFound : Bool) (ptrErr : Int)
    (st : FullState) : Int × FullState :=
  match st.org_sd_probe with
  | none => (-2, st)
  | some org =>
      if !drvFound then (ptrErr, st)
      else (0, { st with drv_probe := org,
                         org_sd_probe := none,
                         max_dom_size_mib := 0 })

/-! ### Helper lemmas about the retry loop -/

/-- A successful command ends the loop with the parsed capacity, having
issued exactly this one command and slept zero times. -/
theorem orcIter_ok_step (dev : Bool → Nat → ScsiResult) (n16 n10 f lba ss : Nat)
    (h : dev true n16 = ScsiResult.ok lba ss) :
    orcIter dev true n16 n10 (f + 1) =
      { outcome := CapOutcome.cap (rc16_size_mib lba ss),
        a16 := 1, a10 := 0, sleeps := 0 } := by
  simp [orcIter, h]

/-- A hard-refusal sense ends the loop with `-EINVAL` at once: one command,
no sleep. -/
theorem orcIter_hard_step (dev : Bool → Nat → ScsiResult) (n16 n10 f : Nat)
    (h : isHardRefusal (dev true n16) = true) :
    orcIter dev true n16 n10 (f + 1) =
      { outcome := CapOutcome.einval, a16 := 1, a10 := 0, sleeps := 0 } := by
  cases hr : dev true n16 with
  | ok lba ss => rw [hr] at h; simp [isHardRefusal] at h
  | fail sv k a q =>
    rw [hr] at h
    simp [isHardRefusal] at h
    obtain ⟨hsv, ⟨hk, ha⟩, hq⟩ := h
    subst hsv; subst hk; subst hq
    rcases ha with ha | ha <;> subst ha <;>
      simp [orcIter, hr, ILLEGAL_REQUEST, UNIT_ATTENTION]

/-- A transient-busy sense sleeps once and retries with the same command. -/
theorem orcIter_busy_step (dev : Bool → Nat → ScsiResult) (n16 n10 f : Nat)
    (h : isTransientBusy (dev true n16) = true) :
    orcIter dev true n16 n10 (f + 1) =
      { outcome := (orcIter dev true (n16 + 1) n10 f).outcome,
        a16 := 1 + (orcIter dev true (n16 + 1) n10 f).a16,
        a10 := (orcIter dev true (n16 + 1) n10 f).a10,
        sleeps := 1 + (orcIter dev true (n16 + 1) n10 f).sleeps } := by
  cases hr : dev true n16 with
  | ok lba ss => rw [hr] at h; simp [isTransientBusy] at h
  | fail sv k a q =>
    rw [hr] at h
    simp [isTransientBusy] at h
    obtain ⟨hsv, ⟨hk, ha⟩, hq⟩ := h
    subst hsv; subst hk; subst ha; subst hq
    simp [orcIter, hr, ILLEGAL_REQUEST, UNIT_ATTENTION]

/-- Every failure that is not a hard refusal goes back around the loop
(with CAP(16) kept, since the fallback branch is unreachable from
`use_cap16 = true`), preserving the final outcome. -/
theorem orcIter_soft_step (dev : Bool → Nat → ScsiResult) (n16 n10 f : Nat)
    (h : isSoftFail (dev true n16) = true) :
    (orcIter dev true n16 n10 (f + 1)).outcome =
      (orcIter dev true (n16 + 1) n10 f).outcome := by
  cases hr : dev true n16 with
  | ok lba ss => rw [hr] at h; simp [isSoftFail] at h
  | fail sv k a q =>
    rw [hr] at h
    simp [isSoftFail] at h
    cases hsv : sv with
    | false => subst hsv; simp [orcIter, hr]
    | true =>
      subst hsv
      simp at h
      simp [orcIter, hr]
      rw [if_neg (by tauto)]
      split <;> rfl

/-- Exhausting the loop on soft failures alone yields `-EIO`. -/
theorem orcIter_soft_exhausts (dev : Bool → Nat → ScsiResult)
    (h : ∀ i, isSoftFail (dev true i) = true) :
    ∀ f n16 n10, (orcIter dev true n16 n10 f).outcome = CapOutcome.exhausted := by
  intro f
  induction f with
  | zero => intro n16 n10; rfl
  | succ f ih =>
    intro n16 n10
    rw [orcIter_soft_step dev n16 n10 f (h n16)]
    exact ih (n16 + 1) n10

/-- When the loop starts on the CAP(16) path it never issues a CAP(10)
command: the downgrade branch is guarded by `!use_cap16`, which is false
whenever it is reached. -/
theorem orcIter_a10_zero (dev : Bool → Nat → ScsiResult) :
    ∀ f n16 n10, (orcIter dev true n16 n10 f).a10 = 0 := by
  intro f
  induction f with
  | zero => intro n16 n10; rfl
  | succ f ih =>
    intro n16 n10
    cases hr : dev true n16 with
    | ok lba ss => simp [orcIter, hr]
    | fail sv k a q =>
      simp [orcIter, hr]
      split
      · exact ih (n16 + 1) n10
      · split
        · rfl
        · split <;> exact ih (n16 + 1) n10

/-- A transient-busy diagnostic is in particular a soft (non-hard) failure. -/
theorem busy_soft (r : ScsiResult) (h : isTransientBusy r = true) :
    isSoftFail r = true := by
  cases r with
  | ok lba ss => simp [isTransientBusy] at h
  | fail sv k a q =>
    simp [isTransientBusy] at h
    obtain ⟨hsv, ⟨hk, ha⟩, hq⟩ := h
    subst hsv; subst hk; subst ha; subst hq
    simp [isSoftFail, ILLEGAL_REQUEST, UNIT_ATTENTION]

/-- Running the loop against a device that answers the first `N` CAP(16)
commands with transient-busy and the next one with success yields the
parsed capacity, provided the budget is not exhausted. -/
theorem orcIter_busy_then_ok (dev : Bool → Nat → ScsiResult) (lba ss : Nat) :
    ∀ (N f n16 n10 : Nat), N < f →
    (∀ i, i < N → isTransientBusy (dev true (n16 + i)) = true) →
    dev true (n16 + N) = ScsiResult.ok lba ss →
    (orcIter dev true n16 n10 f).outcome =
      CapOutcome.cap (rc16_size_mib lba ss) := by
  intro N
  induction N with
  | zero =>
    intro f n16 n10 hf hb hok
    obtain ⟨f2, rfl⟩ : ∃ f2, f = f2 + 1 := ⟨f - 1, by omega⟩
    rw [orcIter_ok_step dev n16 n10 f2 lba ss (by simpa using hok)]
  | succ N ih =>
    intro f n16 n10 hf hb hok
    obtain ⟨f2, rfl⟩ : ∃ f2, f = f2 + 1 := ⟨f - 1, by omega⟩
    have hb0 : isTransientBusy (dev true n16) = true := by
      have := hb 0 (Nat.succ_pos N)
      simpa using this
    rw [orcIter_soft_step dev n16 n10 f2 (busy_soft _ hb0)]
    apply ih f2 (n16 + 1) n10 (by omega)
    · intro i hi
      have := hb (i + 1) (by omega)
      simpa [Nat.add_assoc, Nat.add_comm, Nat.add_left_comm] using this
    · simpa [Nat.add_assoc, Nat.add_comm, Nat.add_left_comm] using hok

/-- A device whose CAP(16) query hard-fails with "invalid field" sense but
whose CAP(10) query would succeed (204800 sectors of 512 bytes = 100 MiB). -/
def devLegacyOnly : Bool → Nat → ScsiResult := fun use16 _i =>
  if use16 then ScsiResult.fail true ILLEGAL_REQUEST 0x20 0
  else ScsiResult.ok 204799 512

/-- C1: the claimed CAP(16)→CAP(10) downgrade never happens. On a device
whose modern query fails with the definitive negative-capability sense and
whose legacy query would succeed, `opportunistic_read_capacity` returns
`-EINVAL` after the single CAP(16) command and issues no CAP(10) command at
all; indeed, starting from `use_cap16 = true` the loop never issues CAP(10)
for any device, because the fallback branch is guarded by `!use_cap16`. -/
theorem opportunistic_read_capacity_no_cap10_fallback :
    opportunistic_read_capacity true devLegacyOnly =
      { outcome := CapOutcome.einval, a16 := 1, a10 := 0, sleeps := 0 }
    ∧ ∀ (dev : Bool → Nat → ScsiResult) (f n16 n10 : Nat),
        (orcIter dev true n16 n10 f).a10 = 0 := by
  constructor
  · rfl
  · intro dev f n16 n10
    exact orcIter_a10_zero dev f n16 n10

/-- C6: a hard-refusal diagnostic (ILLEGAL_REQUEST with asc 0x20 or 0x24,
ascq 0x00) makes the capacity probe report failure immediately: exactly one
command issued, no sleeps, return `-EINVAL`. -/
theorem hard_refusal_fails_immediately (dev : Bool → Nat → ScsiResult)
    (h : isHardRefusal (dev true 0) = true) :
    opportunistic_read_capacity true dev =
      { outcome := CapOutcome.einval, a16 := 1, a10 := 0, sleeps := 0 } := by
  have := orcIter_hard_step dev 0 0 2 h
  simpa [opportunistic_read_capacity, SCSI_CAP_MAX_RETRIES] using this

/-- A device that always hard-refuses the capacity command. -/
def devHardRefuse : Bool → Nat → ScsiResult := fun _u _i =>
  ScsiResult.fail true ILLEGAL_REQUEST 0x24 0

/-- Witness for C6 at a concrete always-refusing device. -/
theorem hard_refusal_fails_immediately_witness :
    opportunistic_read_capacity true devHardRefuse =
      { outcome := CapOutcome.einval, a16 := 1, a10 := 0, sleeps := 0 } :=
  hard_refusal_fails_immediately devHardRefuse rfl

/-- C7: a query answered with `N` consecutive transient-busy diagnostics
(`N` below the `SCSI_CAP_MAX_RETRIES` budget) and then a success returns
the same value as a query with zero transient diagnostics; and a query all
of whose attempts fail softly exhausts the budget and reports `-EIO`. -/
theorem busy_retries_same_value_and_exhaustion_fails :
    (∀ (dev : Bool → Nat → ScsiResult) (N lba ss : Nat),
       N < SCSI_CAP_MAX_RETRIES →
       (∀ i, i < N → isTransientBusy (dev true i) = true) →
       dev true N = ScsiResult.ok lba ss →
       (opportunistic_read_capacity true dev).outcome =
         (opportunistic_read_capacity true (fun _u _i => ScsiResult.ok lba ss)).outcome)
    ∧ (∀ (dev : Bool → Nat → ScsiResult),
       (∀ i, isSoftFail (dev true i) = true) →
       (opportunistic_read_capacity true dev).outcome = CapOutcome.exhausted) := by
  constructor
  · intro dev N lba ss hN hbusy hok
    have hL : (opportunistic_read_capacity true dev).outcome =
        CapOutcome.cap (rc16_size_mib lba ss) := by
      have := orcIter_busy_then_ok dev lba ss N SCSI_CAP_MAX_RETRIES 0 0 hN
        (by simpa using hbusy) (by simpa using hok)
      simpa [opportunistic_read_capacity] using this
    have hR : (opportunistic_read_capacity true
          (fun _u _i => ScsiResult.ok lba ss)).outcome =
        CapOutcome.cap (rc16_size_mib lba ss) := by
      have := orcIter_busy_then_ok (fun _u _i => ScsiResult.ok lba ss) lba ss 0
        SCSI_CAP_MAX_RETRIES 0 0 (by decide)
        (fun i hi => absurd hi (Nat.not_lt_zero i)) rfl
      simpa [opportunistic_read_capacity] using this
    rw [hL, hR]
  · intro dev h
    have := orcIter_soft_exhausts dev h SCSI_CAP_MAX_RETRIES 0 0
    simpa [opportunistic_read_capacity] using this

/-- A device that is busy on the first CAP(16) command and succeeds on the
second (100 MiB). -/
def devBusyThenOk : Bool → Nat → ScsiResult := fun _u i =>
  if i = 0 then ScsiResult.fail true UNIT_ATTENTION 0x29 0
  else ScsiResult.ok 204799 512

/-- A device that always answers transient-busy. -/
def devAlwaysBusy : Bool → Nat → ScsiResult := fun _u _i =>
  ScsiResult.fail true UNIT_ATTENTION 0x29 0

/-- Witness for C7: one busy then success gives the no-busy value; always
busy exhausts the budget. -/
theorem busy_retries_same_value_and_exhaustion_fails_witness :
    ((opportunistic_read_capacity true devBusyThenOk).outcome =
      (opportunistic_read_capacity true
        (fun _u _i => ScsiResult.ok 204799 512)).outcome)
    ∧ (opportunistic_read_capacity true devAlwaysBusy).outcome =
        CapOutcome.exhausted :=
  ⟨busy_retries_same_value_and_exhaustion_fails.1 devBusyThenOk 1 204799 512
      (by decide)
      (by intro i hi
          have : i = 0 := by omega
          subst this
          rfl)
      rfl,
   busy_retries_same_value_and_exhaustion_fails.2 devAlwaysBusy
      (fun _i => rfl)⟩

/-- C2: the classifier accepts a SATA disk iff the capacity probe succeeds
with a value at most `max_dom_size_mib` and no device has been mapped yet;
in particular a probe failure or an over-threshold value is rejected
whatever the mapping history, and once `device_mapped` holds every device
is rejected. -/
theorem is_shim_target_iff (st : ShimState) (d : SDevice) :
    is_shim_target st d = true ↔
      ∃ m : Nat,
        (opportunistic_read_capacity d.allocOk d.resp).outcome = CapOutcome.cap m
        ∧ m ≤ st.max_dom_size_mib ∧ st.device_mapped = false := by
  unfold is_shim_target orcReturnValue
  cases hc : (opportunistic_read_capacity d.allocOk d.resp).outcome with
  | efault => simp
  | einval => simp
  | exhausted => simp
  | cap m =>
    simp only [CapOutcome.cap.injEq]
    split_ifs with h1 h2 h3 <;> (simp_all; try omega)

/-- C3: the intercepting probe always delegates to the saved original probe
and returns its result unchanged (the result is the original probe applied
to whatever device it was handed), and a non-SATA-disk arrival passes
through untouched: same return value as the original probe on the original
device, device (identity strings included) and state unchanged. -/
theorem sd_probe_shim_delegates (org : SDevice → Int) (st : ShimState)
    (d : SDevice) :
    ((sd_probe_shim org st d).1 = org (sd_probe_shim org st d).2.1)
    ∧ (is_sata_disk d = false → sd_probe_shim org st d = (org d, d, st)) := by
  constructor
  · unfold sd_probe_shim
    split_ifs <;> rfl
  · intro h
    unfold sd_probe_shim
    rw [h]
    rfl

/-- An example original probe function. -/
def orgProbeEx : SDevice → Int := fun _d => 7

/-- A non-SATA SCSI device (a host adapter, say). -/
def devNotSata : SDevice :=
  { is_sdev := false, scsi_type := TYPE_DISK,
    syno_port_type := SYNO_PORT_TYPE_SATA, vendor := "QEMU",
    model := "HARDDISK", resp := fun _u _i => ScsiResult.ok 204799 512,
    allocOk := true, user_scan := false }

/-- Witness for C3: a concrete non-SATA device passes through unchanged. -/
theorem sd_probe_shim_delegates_witness :
    sd_probe_shim orgProbeEx { max_dom_size_mib := 200, device_mapped := false }
        devNotSata =
      (orgProbeEx devNotSata, devNotSata,
        { max_dom_size_mib := 200, device_mapped := false }) :=
  (sd_probe_shim_delegates orgProbeEx
    { max_dom_size_mib := 200, device_mapped := false } devNotSata).2 rfl

/-- C4: an eligible SATA-disk arrival has its vendor/model rewritten to the
configured DOM identity and `device_mapped` set, and the original probe is
invoked on the rewritten device (so it observes the new identity). -/
theorem sd_probe_shim_rewrites_eligible (org : SDevice → Int) (st : ShimState)
    (d : SDevice) (hsata : is_sata_disk d = true)
    (htarget : is_shim_target st d = true) :
    sd_probe_shim org st d =
      (org { d with vendor := CONFIG_SYNO_SATA_DOM_VENDOR,
                    model := CONFIG_SYNO_SATA_DOM_MODEL },
       { d with vendor := CONFIG_SYNO_SATA_DOM_VENDOR,
                model := CONFIG_SYNO_SATA_DOM_MODEL },
       { st with device_mapped := true }) := by
  unfold sd_probe_shim
  rw [hsata, htarget]
  rfl

/-- A SATA disk of 100 MiB (204800 sectors of 512 bytes). -/
def devSata100 : SDevice :=
  { is_sdev := true, scsi_type := TYPE_DISK,
    syno_port_type := SYNO_PORT_TYPE_SATA, vendor := "QEMU",
    model := "HARDDISK", resp := fun _u _i => ScsiResult.ok 204799 512,
    allocOk := true, user_scan := true }

/-- Witness for C4: capacity 100 MiB against threshold 200 MiB with no
prior mapping gets rewritten before the original probe sees it. -/
theorem sd_probe_shim_rewrites_eligible_witness :
    sd_probe_shim orgProbeEx { max_dom_size_mib := 200, device_mapped := false }
        devSata100 =
      (orgProbeEx { devSata100 with vendor := CONFIG_SYNO_SATA_DOM_VENDOR,
                                    model := CONFIG_SYNO_SATA_DOM_MODEL },
       { devSata100 with vendor := CONFIG_SYNO_SATA_DOM_VENDOR,
                         model := CONFIG_SYNO_SATA_DOM_MODEL },
       { max_dom_size_mib := 200, device_mapped := true }) :=
  sd_probe_shim_rewrites_eligible orgProbeEx
    { max_dom_size_mib := 200, device_mapped := false } devSata100 rfl rfl

/-- C8: the per-device reconciler callback answers 0 ("continue calling
me") for every device — non-SATA, ineligible, and eligible (after its
remove-and-rescan) alike — and never touches the device, so the bus walk
reaches and logs an event for every device in enumeration order (one event
per device) and ends with 0, and the devices (identity strings included)
come out exactly as they went in. -/
theorem reconciler_visits_every_device (st : ShimState) (devs : List SDevice) :
    probe_existing_devices st devs =
      (0, devs, devs.map (fun d => (on_existing_device st d).2.2))
    ∧ ∀ d : SDevice,
        (on_existing_device st d).1 = 0 ∧ (on_existing_device st d).2.1 = d := by
  have hcb : ∀ d : SDevice,
      (on_existing_device st d).1 = 0 ∧ (on_existing_device st d).2.1 = d := by
    intro d
    unfold on_existing_device
    split_ifs <;> exact ⟨rfl, rfl⟩
  refine ⟨?_, hcb⟩
  induction devs with
  | nil => rfl
  | cons d rest ih =>
    unfold probe_existing_devices at ih ⊢
    unfold bus_for_each_dev
    simp [(hcb d).1, (hcb d).2, ih]

/-- C5: registering while already registered (with a SATA config, the case
the first check lets through) fails with `-EEXIST` and changes nothing —
driver probe pointer, saved original probe and threshold included; and
unregistering while not registered fails with `-ENOENT` and changes
nothing. -/
theorem double_register_unregister_rejected (cfg : BootMedia)
    (drvFound : Bool) (ptrErr : Int) (st : FullState) :
    (cfg.mtype = BootMediaType.sata → st.org_sd_probe.isSome = true →
       register_sata_boot_shim cfg drvFound ptrErr st = (-17, st, []))
    ∧ (st.org_sd_probe = none →
       unregister_sata_boot_shim drvFound ptrErr st = (-2, st)) := by
  constructor
  · intro htype hinst
    unfold register_sata_boot_shim
    rw [if_neg (by simp [htype]), if_pos hinst]
  · intro hnone
    unfold unregister_sata_boot_shim
    rw [hnone]

/-- An installed engine state (original probe saved, shim published). -/
def stInstalledEx : FullState :=
  { drv_probe := ProbePtr.shim, org_sd_probe := some (ProbePtr.ext 7),
    max_dom_size_mib := 100, device_mapped := false, devices := [] }

/-- A never-installed engine state. -/
def stEmptyEx : FullState :=
  { drv_probe := ProbePtr.ext 7, org_sd_probe := none,
    max_dom_size_mib := 0, device_mapped := false, devices := [] }

/-- A SATA boot-media config with a 200 MiB threshold. -/
def cfgSata : BootMedia :=
  { mtype := BootMediaType.sata, dom_size_mib := 200 }

/-- A USB boot-media config (wrong device class for this shim). -/
def cfgUsb : BootMedia :=
  { mtype := BootMediaType.usb, dom_size_mib := 200 }

/-- Witness for C5 at concrete states. -/
theorem double_register_unregister_rejected_witness :
    register_sata_boot_shim cfgSata true 0 stInstalledEx =
      (-17, stInstalledEx, [])
    ∧ unregister_sata_boot_shim true 0 stEmptyEx = (-2, stEmptyEx) :=
  ⟨(double_register_unregister_rejected cfgSata true 0 stInstalledEx).1 rfl rfl,
   (double_register_unregister_rejected cfgSata true 0 stEmptyEx).2 rfl⟩

/-- C9: a successful unregister restores the probe pointer of the driver to the
saved original, clears `org_sd_probe` and zeroes `max_dom_size_mib`, while
`device_mapped` keeps whatever value it had (sticky by design). -/
theorem unregister_restores_probe_keeps_mapped (ptrErr : Int)
    (st : FullState) (p : ProbePtr) (h : st.org_sd_probe = some p) :
    unregister_sata_boot_shim true ptrErr st =
      (0, { st with drv_probe := p, org_sd_probe := none,
                    max_dom_size_mib := 0 })
    ∧ ((unregister_sata_boot_shim true ptrErr st).2).device_mapped
        = st.device_mapped := by
  have hmain : unregister_sata_boot_shim true ptrErr st =
      (0, { st with drv_probe := p, org_sd_probe := none,
                    max_dom_size_mib := 0 }) := by
    unfold unregister_sata_boot_shim
    rw [h]
    rfl
  exact ⟨hmain, by rw [hmain]⟩

/-- An installed engine state that has already mapped a device. -/
def stInstalledMapped : FullState :=
  { drv_probe := ProbePtr.shim, org_sd_probe := some (ProbePtr.ext 7),
    max_dom_size_mib := 100, device_mapped := true, devices := [] }

/-- Witness for C9: after a successful unregister of a mapped state the
flag is still true. -/
theorem unregister_restores_probe_keeps_mapped_witness :
    unregister_sata_boot_shim true 0 stInstalledMapped =
      (0, { stInstalledMapped with
            drv_probe := ProbePtr.ext 7,
            org_sd_probe := none,
            max_dom_size_mib := 0 })
    ∧ ((unregister_sata_boot_shim true 0 stInstalledMapped).2).device_mapped
        = stInstalledMapped.device_mapped :=
  unregister_restores_probe_keeps_mapped 0 stInstalledMapped
    (ProbePtr.ext 7) rfl

/-- C10: with a non-SATA config the device-class check fires first even
when the engine is already installed: the result is `-EINVAL`, not
`-EEXIST`, and the state (threshold, saved original probe, driver probe
pointer) is untouched. -/
theorem register_checks_type_before_installed (cfg : BootMedia)
    (drvFound : Bool) (ptrErr : Int) (st : FullState)
    (htype : cfg.mtype ≠ BootMediaType.sata)
    (_hinst : st.org_sd_probe.isSome = true) :
    register_sata_boot_shim cfg drvFound ptrErr st = (-22, st, []) := by
  unfold register_sata_boot_shim
  rw [if_pos htype]

/-- Witness for C10: USB config against an installed state. -/
theorem register_checks_type_before_installed_witness :
    register_sata_boot_shim cfgUsb true 0 stInstalledEx =
      (-22, stInstalledEx, []) :=
  register_checks_type_before_installed cfgUsb true 0 stInstalledEx
    (by decide) rfl
